import Mathlib

/-!
Verification of the DataSense_AI (EduSense AI) FastAPI application.

The repository is a REST facade over a hosted LLM: it renders prompt strings,
sends them to the model, and extracts a JSON object from the model's textual
reply.  The development below shallowly embeds the reproducible core of the
Python source:

* Python string primitives (`str.find`, slicing with possibly negative
  bounds, `str.strip`, `str.split`, the `in` operator) as executable
  functions over `List Char`;
* a model of `json.loads` (an executable recursive-descent JSON reader
  returning `Except` with a diagnostic message, values kept structurally);
* the four duplicated `_parse_json_response` methods
  (`app/services/ai_service.py`, `curriculum_service.py`, `mcq_service.py`,
  `flashcard_service.py`);
* `ChatService._extract_relevant_snippets` and the chat result assembly;
* the four prompt builders;
* the pydantic `Field` range validations of the request schemas;
* the error-response shapes of `app/main.py` and `app/routes/chat_routes.py`.

Strings are modelled as `List Char` (Python `str` indices are code points,
matching `Char`).  Machine floats never undergo arithmetic in the modelled
code (the single float is the literal constant `0.85`), so it is modelled as
the rational `85/100`.
-/

/-- Convenience: the character list of a string literal. -/
def chars (s : String) : List Char := s.data

/-- Whitespace as stripped by Python `str.strip()` (ASCII subset: space, tab,
newline, carriage return, vertical tab, form feed; the inputs handled by this
application contain no other Unicode whitespace). -/
def isPySpace (c : Char) : Bool :=
  c = ' ' || c = '\t' || c = '\n' || c = '\r' || c = '\x0b' || c = '\x0c'

/-- Python `str.strip()`: remove leading and trailing whitespace. -/
def pyStrip (s : List Char) : List Char :=
  ((s.dropWhile isPySpace).reverse.dropWhile isPySpace).reverse

/-- Scan helper for `str.find`: the index (counted from `i`) of the first
position of `s` at which `sub` is a prefix, if any. -/
def firstMatchAux (sub : List Char) : List Char → Nat → Option Nat
  | [], i => if sub.isPrefixOf ([] : List Char) then some i else none
  | c :: rest, i =>
      if sub.isPrefixOf (c :: rest) then some i else firstMatchAux sub rest (i + 1)

/-- Python `s.find(sub, start)` restricted to `start ≥ 0`, as an `Option`:
the least absolute index `k ≥ start` at which `sub` occurs in `s`. -/
def pyFindOpt (s sub : List Char) (start : Nat) : Option Nat :=
  match firstMatchAux sub (s.drop start) 0 with
  | some k => some (start + k)
  | none => none

/-- Python `s.find(sub, start)`: the occurrence index, or `-1` when absent. -/
def pyFind (s sub : List Char) (start : Nat) : Int :=
  match pyFindOpt s sub start with
  | some k => (k : Int)
  | none => -1

/-- Python `sub in s` (substring containment test). -/
def pyContains (s sub : List Char) : Bool :=
  (pyFindOpt s sub 0).isSome

/-- Python slice `s[a:b]` for `Int` bounds: negative bounds count from the
end, and bounds are clamped into `[0, len s]`. -/
def pySlice (s : List Char) (a b : Int) : List Char :=
  let n : Int := s.length
  let lo : Int := if a < 0 then max (n + a) 0 else min a n
  let hi : Int := if b < 0 then max (n + b) 0 else min b n
  (s.drop lo.toNat).take (hi - lo).toNat

/-- Fuel-driven worker for Python `str.split` with a non-empty separator:
repeatedly cut at the leftmost occurrence of the separator. -/
def pySplitAux : Nat → List Char → List Char → List (List Char)
  | 0, _, s => [s]
  | fuel + 1, sep, s =>
      match pyFindOpt s sep 0 with
      | none => [s]
      | some i => s.take i :: pySplitAux fuel sep (s.drop (i + sep.length))

/-- Python `s.split(sep)` for a non-empty separator `sep`. -/
def pySplit (s sep : List Char) : List (List Char) :=
  pySplitAux (s.length + 1) sep s

/-- Python `str(i)` for an integer. -/
def pyStrInt (i : Int) : List Char := (toString i).data

/-- Python `str(b)` for a boolean (`"True"` / `"False"`). -/
def pyStrBool (b : Bool) : List Char :=
  if b then chars ("True") else chars ("False")

/-- JSON values as produced by `json.loads`.  Numbers are kept as their
source lexeme: the claims under verification only compare parse results
structurally, never compute with numeric values. -/
inductive JsonValue where
  | null : JsonValue
  | bool (b : Bool) : JsonValue
  | num (lexeme : List Char) : JsonValue
  | str (s : List Char) : JsonValue
  | arr (elems : List JsonValue) : JsonValue
  | obj (members : List (List Char × JsonValue)) : JsonValue

/-- Whitespace skipped between JSON tokens (RFC 8259, as in Python's
`json.loads`). -/
def jsonWsChar (c : Char) : Bool :=
  c = ' ' || c = '\t' || c = '\n' || c = '\r'

/-- Skip inter-token JSON whitespace. -/
def skipWs (s : List Char) : List Char := s.dropWhile jsonWsChar

/-- Decimal digit test (code points 48-57). -/
def isDigitChar (c : Char) : Bool := decide (48 ≤ c.toNat ∧ c.toNat ≤ 57)

/-- Value of a hexadecimal digit, if it is one (digits, then the lowercase
and uppercase letter ranges, via code points). -/
def hexVal (c : Char) : Option Nat :=
  if 48 ≤ c.toNat ∧ c.toNat ≤ 57 then some (c.toNat - 48)
  else if 97 ≤ c.toNat ∧ c.toNat ≤ 102 then some (c.toNat - 87)
  else if 65 ≤ c.toNat ∧ c.toNat ≤ 70 then some (c.toNat - 55)
  else none

/-- Read the body of a JSON string after the opening quote, decoding escape
sequences; returns the decoded characters and the rest of the input after the
closing quote.  Fuel decreases at every step; it is instantiated large enough
that exhaustion is unreachable. -/
def parseStringBody : Nat → List Char → List Char → Except (List Char) (List Char × List Char)
  | 0, _, _ => .error (chars ("internal fuel exhausted"))
  | _, [], _ => .error (chars ("Unterminated string"))
  | fuel + 1, c :: rest, acc =>
      if c = '"' then .ok (acc.reverse, rest)
      else if c = '\\' then
        match rest with
        | [] => .error (chars ("Unterminated string"))
        | e :: r =>
            if e = '"' then parseStringBody fuel r ('"' :: acc)
            else if e = '\\' then parseStringBody fuel r ('\\' :: acc)
            else if e = '/' then parseStringBody fuel r ('/' :: acc)
            else if e = 'b' then parseStringBody fuel r ('\x08' :: acc)
            else if e = 'f' then parseStringBody fuel r ('\x0c' :: acc)
            else if e = 'n' then parseStringBody fuel r ('\n' :: acc)
            else if e = 'r' then parseStringBody fuel r ('\r' :: acc)
            else if e = 't' then parseStringBody fuel r ('\t' :: acc)
            else if e = 'u' then
              match r with
              | h1 :: h2 :: h3 :: h4 :: r2 =>
                  match hexVal h1, hexVal h2, hexVal h3, hexVal h4 with
                  | some a, some b, some c2, some d =>
                      parseStringBody fuel r2 (Char.ofNat (((a * 16 + b) * 16 + c2) * 16 + d) :: acc)
                  | _, _, _, _ => .error (chars ("Invalid \\uXXXX escape"))
              | _ => .error (chars ("Invalid \\uXXXX escape"))
            else .error (chars ("Invalid \\escape"))
      else if c.toNat < 32 then .error (chars ("Invalid control character"))
      else parseStringBody fuel rest (c :: acc)

/-- Read a JSON number lexeme (sign, integer part, optional fraction and
exponent) from the head of the input, per the JSON grammar enforced by
`json.loads`; returns the lexeme and the remaining input. -/
def parseNumberLex (s : List Char) : Except (List Char) (List Char × List Char) :=
  let (sign, s1) : List Char × List Char :=
    match s with
    | '-' :: r => (['-'], r)
    | _ => ([], s)
  match s1 with
  | [] => .error (chars ("Expecting value"))
  | c :: rest =>
      if c = '0' then
        let afterInt := rest
        let intPart := ['0']
        let (fracPart, s2) : List Char × List Char :=
          match afterInt with
          | '.' :: r =>
              let ds := r.takeWhile isDigitChar
              (if ds = [] then [] else '.' :: ds, if ds = [] then afterInt else r.dropWhile isDigitChar)
          | _ => ([], afterInt)
        if fracPart = [] && (match afterInt with | '.' :: _ => true | _ => false) then
          .error (chars ("Expecting value"))
        else
          let (expPart, s3) : List Char × List Char :=
            match s2 with
            | e :: r =>
                if e = 'e' ∨ e = 'E' then
                  let (sg, r1) : List Char × List Char :=
                    match r with
                    | '+' :: q => (['+'], q)
                    | '-' :: q => (['-'], q)
                    | _ => ([], r)
                  let ds := r1.takeWhile isDigitChar
                  (if ds = [] then [] else e :: (sg ++ ds), if ds = [] then s2 else r1.dropWhile isDigitChar)
                else ([], s2)
            | [] => ([], s2)
          .ok (sign ++ intPart ++ fracPart ++ expPart, s3)
      else if isDigitChar c then
        let intPart := (c :: rest).takeWhile isDigitChar
        let afterInt := (c :: rest).dropWhile isDigitChar
        let (fracPart, s2) : List Char × List Char :=
          match afterInt with
          | '.' :: r =>
              let ds := r.takeWhile isDigitChar
              (if ds = [] then [] else '.' :: ds, if ds = [] then afterInt else r.dropWhile isDigitChar)
          | _ => ([], afterInt)
        if fracPart = [] && (match afterInt with | '.' :: _ => true | _ => false) then
          .error (chars ("Expecting value"))
        else
          let (expPart, s3) : List Char × List Char :=
            match s2 with
            | e :: r =>
                if e = 'e' ∨ e = 'E' then
                  let (sg, r1) : List Char × List Char :=
                    match r with
                    | '+' :: q => (['+'], q)
                    | '-' :: q => (['-'], q)
                    | _ => ([], r)
                  let ds := r1.takeWhile isDigitChar
                  (if ds = [] then [] else e :: (sg ++ ds), if ds = [] then s2 else r1.dropWhile isDigitChar)
                else ([], s2)
            | [] => ([], s2)
          .ok (sign ++ intPart ++ fracPart ++ expPart, s3)
      else .error (chars ("Expecting value"))

mutual

/-- Read one JSON value from the head of the input (skipping leading
whitespace), per Python's `json.loads`; returns the value and the rest. -/
def parseVal : Nat → List Char → Except (List Char) (JsonValue × List Char)
  | 0, _ => .error (chars ("internal fuel exhausted"))
  | fuel + 1, s =>
      match skipWs s with
      | [] => .error (chars ("Expecting value"))
      | c :: rest =>
          if c = '\x7b' then
            match skipWs rest with
            | '\x7d' :: r2 => .ok (JsonValue.obj [], r2)
            | r1 => parseMembers fuel r1 []
          else if c = '[' then
            match skipWs rest with
            | ']' :: r2 => .ok (JsonValue.arr [], r2)
            | r1 => parseItems fuel r1 []
          else if c = '"' then
            match parseStringBody (rest.length + 1) rest [] with
            | .ok (body, r2) => .ok (JsonValue.str body, r2)
            | .error e => .error e
          else if c = 't' then
            if (chars ("true")).isPrefixOf (c :: rest) then
              .ok (JsonValue.bool true, (c :: rest).drop 4)
            else .error (chars ("Expecting value"))
          else if c = 'f' then
            if (chars ("false")).isPrefixOf (c :: rest) then
              .ok (JsonValue.bool false, (c :: rest).drop 5)
            else .error (chars ("Expecting value"))
          else if c = 'n' then
            if (chars ("null")).isPrefixOf (c :: rest) then
              .ok (JsonValue.null, (c :: rest).drop 4)
            else .error (chars ("Expecting value"))
          else if c = '-' ∨ isDigitChar c then
            match parseNumberLex (c :: rest) with
            | .ok (lex, r2) => .ok (JsonValue.num lex, r2)
            | .error e => .error e
          else .error (chars ("Expecting value"))

/-- Read the members of a JSON object after its opening brace (input already
positioned at a key, whitespace skipped). -/
def parseMembers : Nat → List Char → List (List Char × JsonValue) →
    Except (List Char) (JsonValue × List Char)
  | 0, _, _ => .error (chars ("internal fuel exhausted"))
  | fuel + 1, s, acc =>
      match s with
      | '"' :: r =>
          match parseStringBody (r.length + 1) r [] with
          | .ok (key, r2) =>
              match skipWs r2 with
              | ':' :: r3 =>
                  match parseVal fuel r3 with
                  | .ok (v, r4) =>
                      match skipWs r4 with
                      | ',' :: r5 => parseMembers fuel (skipWs r5) ((key, v) :: acc)
                      | '\x7d' :: r5 => .ok (JsonValue.obj ((key, v) :: acc).reverse, r5)
                      | _ => .error (chars ("Expecting delimiter"))
                  | .error e => .error e
              | _ => .error (chars ("Expecting colon delimiter"))
          | .error e => .error e
      | _ => .error (chars ("Expecting property name enclosed in double quotes"))

/-- Read the items of a JSON array after its opening bracket (input already
positioned at the first item). -/
def parseItems : Nat → List Char → List JsonValue →
    Except (List Char) (JsonValue × List Char)
  | 0, _, _ => .error (chars ("internal fuel exhausted"))
  | fuel + 1, s, acc =>
      match parseVal fuel s with
      | .ok (v, r) =>
          match skipWs r with
          | ',' :: r2 => parseItems fuel r2 (v :: acc)
          | ']' :: r2 => .ok (JsonValue.arr (v :: acc).reverse, r2)
          | _ => .error (chars ("Expecting delimiter"))
      | .error e => .error e

end

/-- Model of Python `json.loads`: parse exactly one JSON value, allowing only
whitespace after it; on failure the diagnostic message is returned. -/
def jsonLoads (s : List Char) : Except (List Char) JsonValue :=
  match parseVal (4 * s.length + 8) s with
  | .error e => .error e
  | .ok (v, rest) =>
      if skipWs rest = [] then .ok v else .error (chars ("Extra data"))

/-- Opening fence with language tag searched for by the extractors. -/
def fenceJson : List Char := chars ("```json")

/-- Bare triple-backtick fence marker. -/
def fenceMark : List Char := chars ("```")

namespace AIService

/-- Code-fence stripping step of `AIService._parse_json_response`
(`app/services/ai_service.py` lines 354-363): if `"```json"` occurs, slice
from just after it to the next `"```"` (Python `find` yielding `-1` when
absent) and strip; else if `"```"` occurs, likewise from just after it; else
leave the text unchanged. -/
def extract_code_block (response : List Char) : List Char :=
  if pyContains response fenceJson then
    let json_start : Int := pyFind response fenceJson 0 + 7
    let json_end : Int := pyFind response fenceMark json_start.toNat
    pyStrip (pySlice response json_start json_end)
  else if pyContains response fenceMark then
    let json_start : Int := pyFind response fenceMark 0 + 3
    let json_end : Int := pyFind response fenceMark json_start.toNat
    pyStrip (pySlice response json_start json_end)
  else
    response

/-- Model of `AIService._parse_json_response` (`app/services/ai_service.py`
lines 341-370): strip a code fence if present, `json.loads` the stripped
text, and on a decode error raise `ValueError` with the parser's message. -/
def parse_json_response (response : List Char) : Except (List Char) JsonValue :=
  match jsonLoads (pyStrip (extract_code_block response)) with
  | .ok v => .ok v
  | .error e => .error (chars ("Invalid JSON response from AI: ") ++ e)

end AIService

namespace CurriculumService

/-- Model of `CurriculumService._parse_json_response`
(`app/services/curriculum_service.py` lines 114-143); the body is a verbatim
duplicate of the AI service's method. -/
def parse_json_response (response : List Char) : Except (List Char) JsonValue :=
  let stripped : List Char :=
    if pyContains response fenceJson then
      let json_start : Int := pyFind response fenceJson 0 + 7
      let json_end : Int := pyFind response fenceMark json_start.toNat
      pyStrip (pySlice response json_start json_end)
    else if pyContains response fenceMark then
      let json_start : Int := pyFind response fenceMark 0 + 3
      let json_end : Int := pyFind response fenceMark json_start.toNat
      pyStrip (pySlice response json_start json_end)
    else
      response
  match jsonLoads (pyStrip stripped) with
  | .ok v => .ok v
  | .error e => .error (chars ("Invalid JSON response from AI: ") ++ e)

end CurriculumService

namespace MCQService

/-- Model of `MCQService._parse_json_response`
(`app/services/mcq_service.py` lines 121-150); the body is a verbatim
duplicate of the AI service's method. -/
def parse_json_response (response : List Char) : Except (List Char) JsonValue :=
  let stripped : List Char :=
    if pyContains response fenceJson then
      let json_start : Int := pyFind response fenceJson 0 + 7
      let json_end : Int := pyFind response fenceMark json_start.toNat
      pyStrip (pySlice response json_start json_end)
    else if pyContains response fenceMark then
      let json_start : Int := pyFind response fenceMark 0 + 3
      let json_end : Int := pyFind response fenceMark json_start.toNat
      pyStrip (pySlice response json_start json_end)
    else
      response
  match jsonLoads (pyStrip stripped) with
  | .ok v => .ok v
  | .error e => .error (chars ("Invalid JSON response from AI: ") ++ e)

end MCQService

namespace FlashcardService

/-- Model of `FlashcardService._parse_json_response`
(`app/services/flashcard_service.py` lines 114-143); the body is a verbatim
duplicate of the AI service's method. -/
def parse_json_response (response : List Char) : Except (List Char) JsonValue :=
  let stripped : List Char :=
    if pyContains response fenceJson then
      let json_start : Int := pyFind response fenceJson 0 + 7
      let json_end : Int := pyFind response fenceMark json_start.toNat
      pyStrip (pySlice response json_start json_end)
    else if pyContains response fenceMark then
      let json_start : Int := pyFind response fenceMark 0 + 3
      let json_end : Int := pyFind response fenceMark json_start.toNat
      pyStrip (pySlice response json_start json_end)
    else
      response
  match jsonLoads (pyStrip stripped) with
  | .ok v => .ok v
  | .error e => .error (chars ("Invalid JSON response from AI: ") ++ e)

end FlashcardService

namespace ChatService

/-- Model of `ChatService._extract_relevant_snippets`
(`app/services/chat_service.py` lines 95-108): split the notes on the
two-character delimiter `". "` and return the first `max_snippets` segments
when the split yields more than `max_snippets`, else all of them.  The
`question` argument is accepted and unused, exactly as in the source. -/
def extract_relevant_snippets (notes _question : List Char)
    (max_snippets : Nat := 3) : List (List Char) :=
  let sentences := pySplit notes (chars (". "))
  if sentences.length > max_snippets then sentences.take max_snippets else sentences

end ChatService

/-- Shape of the dictionary returned by `ChatService.chat_with_notes`.  The
`confidence` float never undergoes arithmetic in the source (it is a literal),
so it is modelled exactly as a rational. -/
structure ChatResult where
  answer : List Char
  confidence : ℚ
  sources : List (List Char)

namespace ChatService

/-- Fixed opening of the chat template up to the `{notes}` placeholder
(`app/services/chat_service.py` lines 57-68). -/
def chatSeg1 : List Char :=
  chars ("You are an expert educational assistant helping students understand their class notes.\n\nClass Notes:\n")

/-- Template text between `{notes}` and `{context_section}`. -/
def chatSeg2 : List Char := chars ("\n\n")

/-- Template text between `{context_section}` and `{question}`. -/
def chatSeg3 : List Char := chars ("\n\nQuestion: ")

/-- Fixed tail of the chat template after `{question}`. -/
def chatSeg4 : List Char :=
  chars ("\n\nProvide a clear, accurate, and educational answer based on the notes provided. If the question cannot be answered from the notes, politely say so and suggest what additional information might be needed.\n\nAnswer:")

/-- Value of `context_section` (`chat_service.py` line 70): the
"Previous Context" block when the optional context is truthy (present and
non-empty), else the empty string. -/
def chat_context_section (context : Option (List Char)) : List Char :=
  match context with
  | some c => if c = [] then [] else chars ("Previous Context:\n") ++ c ++ chars ("\n")
  | none => []

/-- Rendered chat prompt of `ChatService.chat_with_notes`
(`chat_service.py` lines 57-83): the fixed template with `notes`,
`context_section` and `question` substituted by plain concatenation. -/
def chat_prompt (notes question : List Char) (context : Option (List Char)) : List Char :=
  chatSeg1 ++ notes ++ chatSeg2 ++ chat_context_section context ++ chatSeg3 ++ question ++ chatSeg4

/-- Result dictionary assembled by `ChatService.chat_with_notes`
(`chat_service.py` lines 85-89): the stripped model reply, the literal
confidence constant `0.85`, and the snippet sources (the model reply and the
notes are the only data flowing in; `question` is forwarded to the snippet
helper, which ignores it). -/
def chat_with_notes_result (modelReply notes question : List Char) : ChatResult :=
  { answer := pyStrip modelReply
    confidence := 85 / 100
    sources := extract_relevant_snippets notes question }

end ChatService

namespace MCQService

/-- Fixed opening of the MCQ template up to `{num_questions}`
(`app/services/mcq_service.py` lines 60-96). -/
def mcqSeg1 : List Char := chars ("You are an expert test creator. Generate ")

/-- Template text between `{num_questions}` and `{content}`. -/
def mcqSeg2 : List Char :=
  chars (" multiple choice questions (MCQs) from the following content.\n\nContent:\n")

/-- Template text between `{content}` and `{difficulty_level}`. -/
def mcqSeg3 : List Char := chars ("\n\nDifficulty Level: ")

/-- Template text between `{difficulty_level}` and `{include_explanations}`. -/
def mcqSeg4 : List Char := chars ("\nInclude Explanations: ")

/-- Template text between `{include_explanations}` and the second
`{num_questions}` (the `total_questions` value of the embedded JSON schema;
the doubled braces of the Python template render as literal braces). -/
def mcqSeg5 : List Char :=
  chars ("\n\nGenerate questions in JSON format with this structure:\n\x7b\n  \"total_questions\": ")

/-- Template text between the second `{num_questions}` and the second
`{difficulty_level}`. -/
def mcqSeg6 : List Char := chars (",\n  \"difficulty_level\": \"")

/-- Fixed tail of the MCQ template after the second `{difficulty_level}`. -/
def mcqSeg7 : List Char :=
  chars ("\",\n  \"questions\": [\n    \x7b\n      \"question_number\": 1,\n      \"question\": \"question text\",\n      \"options\": [\n        \x7b\"option\": \"A\", \"text\": \"option A text\"\x7d,\n        \x7b\"option\": \"B\", \"text\": \"option B text\"\x7d,\n        \x7b\"option\": \"C\", \"text\": \"option C text\"\x7d,\n        \x7b\"option\": \"D\", \"text\": \"option D text\"\x7d\n      ],\n      \"correct_answer\": \"A\",\n      \"explanation\": \"explanation for why A is correct\",\n      \"difficulty\": \"medium\"\n    \x7d\n  ]\n\x7d\n\nEnsure:\n1. Questions are clear and unambiguous\n2. All options are plausible\n3. Only one correct answer per question\n4. Explanations are educational and detailed\n5. Questions cover different aspects of the content\n\nJSON Response:")

/-- Rendered MCQ prompt of `MCQService.generate_mcqs` (`mcq_service.py`
lines 60-110): the fixed template with `content`, `num_questions` (twice,
rendered by `str`), `difficulty_level` (twice) and
`str(include_explanations)` substituted. -/
def mcq_prompt (content : List Char) (num_questions : Int)
    (difficulty_level : List Char) (include_explanations : Bool) : List Char :=
  mcqSeg1 ++ pyStrInt num_questions ++ mcqSeg2 ++ content ++ mcqSeg3 ++ difficulty_level
    ++ mcqSeg4 ++ pyStrBool include_explanations ++ mcqSeg5 ++ pyStrInt num_questions
    ++ mcqSeg6 ++ difficulty_level ++ mcqSeg7

end MCQService

namespace CurriculumService

/-- Fixed opening of the curriculum template up to the first
`{duration_weeks}` (`app/services/curriculum_service.py` lines 61-89). -/
def curSeg1 : List Char :=
  chars ("You are an expert curriculum designer. Create a comprehensive ")

/-- Template text between the first `{duration_weeks}` and `{document}`. -/
def curSeg2 : List Char :=
  chars ("-week curriculum based on the following content.\n\nContent:\n")

/-- Template text between `{document}` and `{subject}`. -/
def curSeg3 : List Char := chars ("\n\nSubject: ")

/-- Template text between `{subject}` and the first `{difficulty_level}`. -/
def curSeg4 : List Char := chars ("\nDifficulty Level: ")

/-- Template text between the first `{difficulty_level}` and the second
`{duration_weeks}`. -/
def curSeg5 : List Char := chars ("\nDuration: ")

/-- Template text between the second `{duration_weeks}` and the second
`{difficulty_level}` (the embedded JSON schema opening; doubled braces of the
Python template render as literal braces). -/
def curSeg6 : List Char :=
  chars (" weeks\n\nGenerate a structured curriculum in JSON format with the following structure:\n\x7b\n  \"subject\": \"subject name\",\n  \"difficulty_level\": \"")

/-- Template text between the second `{difficulty_level}` and the third
`{duration_weeks}` (the `total_weeks` value). -/
def curSeg7 : List Char := chars ("\",\n  \"total_weeks\": ")

/-- Template text between the third `{duration_weeks}` and the third
`{difficulty_level}`. -/
def curSeg8 : List Char :=
  chars (",\n  \"overview\": \"brief overview of the curriculum\",\n  \"prerequisites\": [\"prerequisite 1\", \"prerequisite 2\"],\n  \"weeks\": [\n    \x7b\n      \"week_number\": 1,\n      \"title\": \"week title\",\n      \"topics\": [\"topic 1\", \"topic 2\"],\n      \"learning_objectives\": [\"objective 1\", \"objective 2\"],\n      \"suggested_activities\": [\"activity 1\", \"activity 2\"]\n    \x7d\n  ]\n\x7d\n\nEnsure the curriculum is comprehensive, well-structured, and appropriate for the ")

/-- Fixed tail of the curriculum template after the third
`{difficulty_level}`. -/
def curSeg9 : List Char := chars (" level.\n\nJSON Response:")

/-- Value substituted for `{subject}` (`curriculum_service.py` line 100):
`subject or "General Studies"` under Python truthiness. -/
def subject_value (subject : Option (List Char)) : List Char :=
  match subject with
  | some s => if s = [] then chars ("General Studies") else s
  | none => chars ("General Studies")

/-- Rendered curriculum prompt of `CurriculumService.generate_curriculum`
(`curriculum_service.py` lines 61-103): the fixed template with `document`,
`subject or "General Studies"`, `difficulty_level` (three times) and
`str(duration_weeks)` (three times) substituted. -/
def curriculum_prompt (document : List Char) (subject : Option (List Char))
    (difficulty_level : List Char) (duration_weeks : Int) : List Char :=
  curSeg1 ++ pyStrInt duration_weeks ++ curSeg2 ++ document ++ curSeg3
    ++ subject_value subject ++ curSeg4 ++ difficulty_level ++ curSeg5
    ++ pyStrInt duration_weeks ++ curSeg6 ++ difficulty_level ++ curSeg7
    ++ pyStrInt duration_weeks ++ curSeg8 ++ difficulty_level ++ curSeg9

end CurriculumService

namespace FlashcardService

/-- Fixed opening of the flashcard template up to `{num_flashcards}`
(`app/services/flashcard_service.py` lines 59-88). -/
def flashSeg1 : List Char :=
  chars ("You are an expert at creating educational flashcards. Generate ")

/-- Template text between `{num_flashcards}` and `{content}`. -/
def flashSeg2 : List Char :=
  chars (" flashcards from the following content.\n\nContent:\n")

/-- Template text between `{content}` and `{focus_section}`. -/
def flashSeg3 : List Char := chars ("\n\n")

/-- Template text between `{focus_section}` and the second
`{num_flashcards}` (the `total_cards` value; doubled braces render as
literal braces). -/
def flashSeg4 : List Char :=
  chars ("\n\nGenerate flashcards in JSON format with this structure:\n\x7b\n  \"total_cards\": ")

/-- Template text between the second `{num_flashcards}` and
`{focus_areas}`. -/
def flashSeg5 : List Char := chars (",\n  \"focus_areas\": \"")

/-- Fixed tail of the flashcard template after `{focus_areas}`. -/
def flashSeg6 : List Char :=
  chars ("\",\n  \"flashcards\": [\n    \x7b\n      \"card_number\": 1,\n      \"front\": \"Question or term (concise)\",\n      \"back\": \"Answer or definition (clear and complete)\",\n      \"category\": \"topic category\",\n      \"difficulty\": \"easy/medium/hard\"\n    \x7d\n  ]\n\x7d\n\nEnsure:\n1. Front of card is concise (question/term)\n2. Back provides clear, complete answer\n3. Cards cover key concepts\n4. Mix of difficulty levels\n5. Logical categorization\n\nJSON Response:")

/-- Value of `focus_section` (`flashcard_service.py` line 89): the focus-area
line when the optional text is truthy, else the fixed fallback line. -/
def focus_section (focus_areas : Option (List Char)) : List Char :=
  match focus_areas with
  | some f => if f = [] then chars ("Focus Areas: Cover all key concepts")
              else chars ("Focus Areas: ") ++ f
  | none => chars ("Focus Areas: Cover all key concepts")

/-- Value substituted for `{focus_areas}` (`flashcard_service.py` line 102):
`focus_areas or "general"` under Python truthiness. -/
def focus_areas_value (focus_areas : Option (List Char)) : List Char :=
  match focus_areas with
  | some f => if f = [] then chars ("general") else f
  | none => chars ("general")

/-- Rendered flashcard prompt of `FlashcardService.generate_flashcards`
(`flashcard_service.py` lines 59-103): the fixed template with `content`,
`str(num_flashcards)` (twice), `focus_section` and
`focus_areas or "general"` substituted. -/
def flashcard_prompt (content : List Char) (num_flashcards : Int)
    (focus_areas : Option (List Char)) : List Char :=
  flashSeg1 ++ pyStrInt num_flashcards ++ flashSeg2 ++ content ++ flashSeg3
    ++ focus_section focus_areas ++ flashSeg4 ++ pyStrInt num_flashcards
    ++ flashSeg5 ++ focus_areas_value focus_areas ++ flashSeg6

end FlashcardService

/-- Pydantic `Field` constraints of `GenerateMCQRequest`
(`app/schemas/mcq_schemas.py` lines 20-23): `content` has `min_length=50` and
`num_questions` is constrained to `ge=1, le=20` (the remaining fields carry
no range constraints and are not modelled). -/
def validGenerateMCQRequest (content : List Char) (num_questions : Int) : Bool :=
  decide (50 ≤ content.length) && decide ((1 : Int) ≤ num_questions) && decide (num_questions ≤ 20)

/-- Pydantic `Field` constraints of `GenerateFlashcardsRequest`
(`app/schemas/flashcard_schemas.py` lines 19-21): `content` has
`min_length=50` and `num_flashcards` is constrained to `ge=1, le=50`. -/
def validGenerateFlashcardsRequest (content : List Char) (num_flashcards : Int) : Bool :=
  decide (50 ≤ content.length) && decide ((1 : Int) ≤ num_flashcards) && decide (num_flashcards ≤ 50)

/-- Pydantic `Field` constraints of `GenerateCurriculumRequest`
(`app/schemas/curriculum_schemas.py` lines 20-23): `document` has
`min_length=50` and `duration_weeks` is constrained to `ge=1, le=52`. -/
def validGenerateCurriculumRequest (document : List Char) (duration_weeks : Int) : Bool :=
  decide (50 ≤ document.length) && decide ((1 : Int) ≤ duration_weeks) && decide (duration_weeks ≤ 52)

/-- Body of an HTTP error response.  `error` and `status_code` are `Option`s
because FastAPI's built-in `HTTPException` handler emits a body holding only
a `detail` key, while the application's global handler emits all three. -/
structure ErrorBody where
  error : Option (List Char)
  detail : List Char
  status_code : Option Nat

namespace MainApp

/-- Model of `global_exception_handler` (`app/main.py` lines 59-79): any
exception that reaches the application-level handler yields HTTP 500 with
the body `\x7berror, detail, status_code\x7d`; the detail is the exception
text in debug mode and a fixed generic message otherwise. -/
def global_exception_handler (debug_mode : Bool) (excMessage : List Char) : Nat × ErrorBody :=
  (500,
    { error := some (chars ("Internal Server Error"))
      detail := if debug_mode then excMessage else chars ("An unexpected error occurred")
      status_code := some 500 })

end MainApp

namespace ChatRoutes

/-- Model of the error path of the `/chat` route
(`app/routes/chat_routes.py` lines 64-69) combined with FastAPI's built-in
`HTTPException` handling (framework behaviour, outside this repository): the
route catches any exception `e` and raises
`HTTPException(500, detail = "Failed to process chat request: " + str(e))`;
the framework converts an `HTTPException` to a response whose JSON body holds
only the `detail` key.  The route never consults `settings.debug_mode`. -/
def chat_error_response (excMessage : List Char) : Nat × ErrorBody :=
  (500,
    { error := none
      detail := chars ("Failed to process chat request: ") ++ excMessage
      status_code := none })

end ChatRoutes

/-- Structural test used to state that a parse result is a JSON object
(a Python `dict`). -/
def JsonValue.isObj : JsonValue → Bool
  | .obj _ => true
  | _ => false

/-- Generic list fact behind the snippet-count claim: taking `n` elements of
a list of length at most `n` returns the whole list. -/
theorem take_eq_self_of_le {α : Type} {l : List α} {n : Nat} (h : l.length ≤ n) :
    l.take n = l :=
  List.take_of_length_le h

/-- Characterization of the `str.find` scan helper: a hit at `k` lies at or
after the scan origin, within the scanned list, and the needle is a prefix of
the residual list there. -/
theorem firstMatchAux_some {sub : List Char} :
    ∀ {s : List Char} {i k : Nat}, firstMatchAux sub s i = some k →
      i ≤ k ∧ k - i ≤ s.length ∧ sub.isPrefixOf (s.drop (k - i)) = true := by
  intro s
  induction s with
  | nil =>
      intro i k h
      unfold firstMatchAux at h
      split at h
      · cases h
        refine ⟨Nat.le_refl _, by simp, ?_⟩
        simpa using ‹sub.isPrefixOf ([] : List Char) = true›
      · cases h
  | cons c rest ih =>
      intro i k h
      unfold firstMatchAux at h
      split at h
      · cases h
        refine ⟨Nat.le_refl _, by simp, ?_⟩
        simpa using ‹sub.isPrefixOf (c :: rest) = true›
      · obtain ⟨h1, h2, h3⟩ := ih h
        refine ⟨by omega, by simp; omega, ?_⟩
        have hk : k - i = (k - (i + 1)) + 1 := by omega
        rw [hk, List.drop_succ_cons]
        exact h3

/-- Characterization of Python `str.find` when it succeeds on a non-empty
needle: the hit index is at or after `start`, the needle fits inside `s` at
that index, and it occurs there. -/
theorem pyFindOpt_some {s sub : List Char} {start k : Nat}
    (hsub : sub ≠ []) (h : pyFindOpt s sub start = some k) :
    start ≤ k ∧ k + sub.length ≤ s.length ∧ sub.isPrefixOf (s.drop k) = true := by
  unfold pyFindOpt at h
  cases hfm : firstMatchAux sub (s.drop start) 0 with
  | none => rw [hfm] at h; cases h
  | some k2 =>
      rw [hfm] at h
      cases h
      obtain ⟨-, h2, h3⟩ := firstMatchAux_some hfm
      rw [Nat.sub_zero] at h2 h3
      rw [List.drop_drop] at h3
      have hpre : sub <+: s.drop (start + k2) := List.isPrefixOf_iff_prefix.mp h3
      have hlen : sub.length ≤ (s.drop (start + k2)).length := hpre.length_le
      rw [List.length_drop] at hlen
      have hpos : 1 ≤ sub.length := by
        cases sub with
        | nil => exact absurd rfl hsub
        | cons a l => simp
      exact ⟨by omega, by omega, h3⟩

/-- Evaluation of a Python slice with two in-range non-negative bounds. -/
theorem pySlice_take_drop {s : List Char} {a k : Nat}
    (ha : a ≤ s.length) (hk : k ≤ s.length) :
    pySlice s (a : Int) (k : Int) = (s.drop a).take (k - a) := by
  simp only [pySlice]
  rw [if_neg (by omega : ¬((a : Int) < 0)), if_neg (by omega : ¬((k : Int) < 0))]
  rw [min_eq_left (by exact_mod_cast ha : (a : Int) ≤ (s.length : Int))]
  rw [min_eq_left (by exact_mod_cast hk : (k : Int) ≤ (s.length : Int))]
  congr 1
  omega

/-- Evaluation of a Python slice whose end bound is `-1` (as produced by a
failed `find`): it stops one character before the end of the list. -/
theorem pySlice_neg_one {s : List Char} {a : Nat} (ha : a ≤ s.length) :
    pySlice s (a : Int) (-1) = (s.drop a).take (s.length - 1 - a) := by
  simp only [pySlice]
  rw [if_neg (by omega : ¬((a : Int) < 0)), if_pos (by omega : (-1 : Int) < 0)]
  rw [min_eq_left (by exact_mod_cast ha : (a : Int) ≤ (s.length : Int))]
  congr 1
  omega

/-- Length of the tagged opening fence marker. -/
theorem fenceJson_length : fenceJson.length = 7 := rfl

/-- Length of the bare fence marker. -/
theorem fenceMark_length : fenceMark.length = 3 := rfl

/-- Branch of the extractor for a `json`-tagged fence with a closing fence:
it selects the trimmed region between the end of the first `"```json"` and
the next `"```"`. -/
theorem extract_json_tagged {resp : List Char} {j k : Nat}
    (hj : pyFindOpt resp fenceJson 0 = some j)
    (hk : pyFindOpt resp fenceMark (j + 7) = some k) :
    AIService.extract_code_block resp = pyStrip ((resp.drop (j + 7)).take (k - (j + 7))) := by
  obtain ⟨-, hjlen, -⟩ := pyFindOpt_some (by decide) hj
  obtain ⟨hjk, hklen, -⟩ := pyFindOpt_some (by decide) hk
  rw [fenceJson_length] at hjlen
  rw [fenceMark_length] at hklen
  have hcont : pyContains resp fenceJson = true := by
    unfold pyContains
    rw [hj]
    rfl
  have e1 : pyFind resp fenceJson 0 = (j : Int) := by
    unfold pyFind
    rw [hj]
  have e2 : ((j : Int) + 7).toNat = j + 7 := by omega
  have e3 : pyFind resp fenceMark (j + 7) = (k : Int) := by
    unfold pyFind
    rw [hk]
  simp only [AIService.extract_code_block, hcont, if_true, e1, e2, e3]
  congr 1
  rw [show ((j : Int) + 7) = (((j + 7 : Nat)) : Int) by push_cast; ring]
  exact pySlice_take_drop (by omega) (by omega)

/-- Branch of the extractor for a bare fence (no `json` tag anywhere) with a
closing fence: it selects the trimmed region between the end of the first
`"```"` and the next `"```"`. -/
theorem extract_plain_fence {resp : List Char} {j k : Nat}
    (hnone : pyFindOpt resp fenceJson 0 = none)
    (hj : pyFindOpt resp fenceMark 0 = some j)
    (hk : pyFindOpt resp fenceMark (j + 3) = some k) :
    AIService.extract_code_block resp = pyStrip ((resp.drop (j + 3)).take (k - (j + 3))) := by
  obtain ⟨-, hjlen, -⟩ := pyFindOpt_some (by decide) hj
  obtain ⟨hjk, hklen, -⟩ := pyFindOpt_some (by decide) hk
  rw [fenceMark_length] at hjlen hklen
  have hcont : pyContains resp fenceJson = false := by
    unfold pyContains
    rw [hnone]
    rfl
  have hcont2 : pyContains resp fenceMark = true := by
    unfold pyContains
    rw [hj]
    rfl
  have e1 : pyFind resp fenceMark 0 = (j : Int) := by
    unfold pyFind
    rw [hj]
  have e2 : ((j : Int) + 3).toNat = j + 3 := by omega
  have e3 : pyFind resp fenceMark (j + 3) = (k : Int) := by
    unfold pyFind
    rw [hk]
  simp only [AIService.extract_code_block, hcont, hcont2, if_true, Bool.false_eq_true,
    if_false, e1, e2, e3]
  congr 1
  rw [show ((j : Int) + 3) = (((j + 3 : Nat)) : Int) by push_cast; ring]
  exact pySlice_take_drop (by omega) (by omega)

/-- Branch of the extractor when no fence occurs at all: the text is passed
through unchanged (it is trimmed later, at the parse step). -/
theorem extract_no_fence {resp : List Char}
    (h1 : pyFindOpt resp fenceJson 0 = none)
    (h2 : pyFindOpt resp fenceMark 0 = none) :
    AIService.extract_code_block resp = resp := by
  have hcont : pyContains resp fenceJson = false := by
    unfold pyContains
    rw [h1]
    rfl
  have hcont2 : pyContains resp fenceMark = false := by
    unfold pyContains
    rw [h2]
    rfl
  simp only [AIService.extract_code_block, hcont, hcont2, Bool.false_eq_true, if_false]

/-- Branch of the extractor for a `json`-tagged fence with no closing fence:
the slice end is the `-1` of the failed `find`, so the selected region stops
one character short of the end of the text. -/
theorem extract_json_tagged_noclose {resp : List Char} {j : Nat}
    (hj : pyFindOpt resp fenceJson 0 = some j)
    (hk : pyFindOpt resp fenceMark (j + 7) = none) :
    AIService.extract_code_block resp
      = pyStrip ((resp.drop (j + 7)).take (resp.length - 1 - (j + 7))) := by
  obtain ⟨-, hjlen, -⟩ := pyFindOpt_some (by decide) hj
  rw [fenceJson_length] at hjlen
  have hcont : pyContains resp fenceJson = true := by
    unfold pyContains
    rw [hj]
    rfl
  have e1 : pyFind resp fenceJson 0 = (j : Int) := by
    unfold pyFind
    rw [hj]
  have e2 : ((j : Int) + 7).toNat = j + 7 := by omega
  have e3 : pyFind resp fenceMark (j + 7) = -1 := by
    unfold pyFind
    rw [hk]
  simp only [AIService.extract_code_block, hcont, if_true, e1, e2, e3]
  congr 1
  rw [show ((j : Int) + 7) = (((j + 7 : Nat)) : Int) by push_cast; ring]
  exact pySlice_neg_one (by omega)

/-- Branch of the extractor for a bare fence with no closing fence: the
selected region stops one character short of the end of the text. -/
theorem extract_plain_fence_noclose {resp : List Char} {j : Nat}
    (hnone : pyFindOpt resp fenceJson 0 = none)
    (hj : pyFindOpt resp fenceMark 0 = some j)
    (hk : pyFindOpt resp fenceMark (j + 3) = none) :
    AIService.extract_code_block resp
      = pyStrip ((resp.drop (j + 3)).take (resp.length - 1 - (j + 3))) := by
  obtain ⟨-, hjlen, -⟩ := pyFindOpt_some (by decide) hj
  rw [fenceMark_length] at hjlen
  have hcont : pyContains resp fenceJson = false := by
    unfold pyContains
    rw [hnone]
    rfl
  have hcont2 : pyContains resp fenceMark = true := by
    unfold pyContains
    rw [hj]
    rfl
  have e1 : pyFind resp fenceMark 0 = (j : Int) := by
    unfold pyFind
    rw [hj]
  have e2 : ((j : Int) + 3).toNat = j + 3 := by omega
  have e3 : pyFind resp fenceMark (j + 3) = -1 := by
    unfold pyFind
    rw [hk]
  simp only [AIService.extract_code_block, hcont, hcont2, if_true, Bool.false_eq_true,
    if_false, e1, e2, e3]
  congr 1
  rw [show ((j : Int) + 3) = (((j + 3 : Nat)) : Int) by push_cast; ring]
  exact pySlice_neg_one (by omega)

/-- C1: the extractor selects the substring to parse by a three-way priority
(first `"```json"`-tagged fence up to the next closing fence, trimmed; else
first bare fence up to the next closing fence, trimmed; else the full text,
trimmed at the parse step), and the three section-8 example texts (tagged
fence with prose, untagged fence, bare JSON) each parse to the JSON object
holding the single member `a = 1`. -/
theorem extractor_three_way_priority :
    (∀ (resp : List Char) (j k : Nat),
        pyFindOpt resp fenceJson 0 = some j →
        pyFindOpt resp fenceMark (j + 7) = some k →
        AIService.extract_code_block resp = pyStrip ((resp.drop (j + 7)).take (k - (j + 7))))
    ∧ (∀ (resp : List Char) (j k : Nat),
        pyFindOpt resp fenceJson 0 = none →
        pyFindOpt resp fenceMark 0 = some j →
        pyFindOpt resp fenceMark (j + 3) = some k →
        AIService.extract_code_block resp = pyStrip ((resp.drop (j + 3)).take (k - (j + 3))))
    ∧ (∀ resp : List Char,
        pyFindOpt resp fenceJson 0 = none →
        pyFindOpt resp fenceMark 0 = none →
        AIService.extract_code_block resp = resp)
    ∧ AIService.parse_json_response (chars ("prefix ```json \x7b\"a\":1\x7d ``` suffix"))
        = .ok (JsonValue.obj [(chars ("a"), JsonValue.num (chars ("1")))])
    ∧ AIService.parse_json_response (chars ("```\n\x7b\"a\":1\x7d\n```"))
        = .ok (JsonValue.obj [(chars ("a"), JsonValue.num (chars ("1")))])
    ∧ AIService.parse_json_response (chars ("\x7b\"a\":1\x7d"))
        = .ok (JsonValue.obj [(chars ("a"), JsonValue.num (chars ("1")))]) := by
  refine ⟨fun resp j k hj hk => extract_json_tagged hj hk,
          fun resp j k hn hj hk => extract_plain_fence hn hj hk,
          fun resp h1 h2 => extract_no_fence h1 h2, rfl, rfl, rfl⟩

/-- C1 witness: the first section-8 example instantiates the tagged-fence
branch with the opening tag at index 7 and the closing fence at index 23. -/
theorem extractor_three_way_priority_witness :
    AIService.extract_code_block (chars ("prefix ```json \x7b\"a\":1\x7d ``` suffix"))
      = pyStrip (((chars ("prefix ```json \x7b\"a\":1\x7d ``` suffix")).drop (7 + 7)).take (23 - (7 + 7))) :=
  extractor_three_way_priority.1 (chars ("prefix ```json \x7b\"a\":1\x7d ``` suffix")) 7 23
    (by rfl) (by rfl)

/-- C2 counterexample: on the text `"```abc"` (an opening fence with no
closing fence) the extractor yields `"ab"`, not the claimed rest-of-string
`"abc"` — the `-1` of the failed `find`, used as a slice end, cuts the last
character off. -/
theorem missing_close_fence_not_rest_of_string :
    AIService.extract_code_block (chars ("```abc")) = chars ("ab")
    ∧ chars ("ab") ≠ pyStrip ((chars ("```abc")).drop 3) :=
  ⟨rfl, by decide⟩

/-- C2 amended: when an opening fence has no subsequent closing fence, the
extracted substring is everything from just after the opening marker up to
but excluding the last character of the text (trimmed): Python's
`find` result `-1` used as a slice end bound means "stop one before the
end", not "rest of string". -/
theorem missing_close_fence_drops_last_char :
    (∀ (resp : List Char) (j : Nat),
        pyFindOpt resp fenceJson 0 = some j →
        pyFindOpt resp fenceMark (j + 7) = none →
        AIService.extract_code_block resp
          = pyStrip ((resp.drop (j + 7)).take (resp.length - 1 - (j + 7))))
    ∧ (∀ (resp : List Char) (j : Nat),
        pyFindOpt resp fenceJson 0 = none →
        pyFindOpt resp fenceMark 0 = some j →
        pyFindOpt resp fenceMark (j + 3) = none →
        AIService.extract_code_block resp
          = pyStrip ((resp.drop (j + 3)).take (resp.length - 1 - (j + 3)))) :=
  ⟨fun _ _ hj hk => extract_json_tagged_noclose hj hk,
   fun _ _ hn hj hk => extract_plain_fence_noclose hn hj hk⟩

/-- C2 witness: the bare-fence no-closing branch at the concrete text
`"```abc"` (fence at index 0, slice from 3 to length minus one). -/
theorem missing_close_fence_drops_last_char_witness :
    AIService.extract_code_block (chars ("```abc"))
      = pyStrip (((chars ("```abc")).drop (0 + 3)).take ((chars ("```abc")).length - 1 - (0 + 3))) :=
  missing_close_fence_drops_last_char.2 (chars ("```abc")) 0 (by rfl) (by rfl) (by rfl)

/-- C3: whenever the selected (trimmed) substring is not valid JSON, the
parser fails with a single `ValueError` whose message carries the JSON
decoder's diagnostic; no `.ok` value is produced (no partial object, no
repair, no retry). -/
theorem parse_failure_is_error_only :
    ∀ (resp e : List Char),
      jsonLoads (pyStrip (AIService.extract_code_block resp)) = .error e →
      AIService.parse_json_response resp
          = .error (chars ("Invalid JSON response from AI: ") ++ e)
        ∧ ∀ v : JsonValue, AIService.parse_json_response resp ≠ .ok v := by
  intro resp e h
  have hmain : AIService.parse_json_response resp
      = .error (chars ("Invalid JSON response from AI: ") ++ e) := by
    unfold AIService.parse_json_response
    rw [h]
  refine ⟨hmain, ?_⟩
  intro v hv
  rw [hmain] at hv
  exact Except.noConfusion hv

/-- C3 witness: the trailing-comma text from section 8 produces the decoder
diagnostic and an error-only outcome. -/
theorem parse_failure_is_error_only_witness :
    AIService.parse_json_response (chars ("\x7b\"a\":1,\x7d"))
      = .error (chars ("Invalid JSON response from AI: ")
          ++ chars ("Expecting property name enclosed in double quotes")) :=
  (parse_failure_is_error_only (chars ("\x7b\"a\":1,\x7d"))
    (chars ("Expecting property name enclosed in double quotes")) (by rfl)).1

/-- C4 evaluation at the failing input: on the reply `"[1, 2]"` the parser
succeeds and returns a JSON array, not an object, contradicting the
function's declared `Dict` return type and docstring. -/
theorem parse_json_response_accepts_nonobject :
    AIService.parse_json_response (chars ("[1, 2]"))
      = .ok (JsonValue.arr [JsonValue.num (chars ("1")), JsonValue.num (chars ("2"))])
    ∧ JsonValue.isObj
        (JsonValue.arr [JsonValue.num (chars ("1")), JsonValue.num (chars ("2"))]) = false :=
  ⟨rfl, rfl⟩

/-- C10: the four duplicated `_parse_json_response` methods of the AI,
curriculum, MCQ and flashcard services agree on every input string. -/
theorem four_parsers_extensionally_equal :
    ∀ resp : List Char,
      AIService.parse_json_response resp = CurriculumService.parse_json_response resp
      ∧ AIService.parse_json_response resp = MCQService.parse_json_response resp
      ∧ AIService.parse_json_response resp = FlashcardService.parse_json_response resp :=
  fun _ => ⟨rfl, rfl, rfl⟩

/-- C5: the chat `sources` are exactly the first at-most-3 segments of the
notes split on the literal delimiter `". "` (period-space); in particular
`"A. B. C. D."` yields `["A", "B", "C"]`.  Stated for every snippet bound
`m`; the service calls it with the default `m = 3`. -/
theorem chat_sources_take_three_of_split :
    (∀ (notes question : List Char) (m : Nat),
        ChatService.extract_relevant_snippets notes question m
          = (pySplit notes (chars (". "))).take m)
    ∧ ChatService.extract_relevant_snippets (chars ("A. B. C. D.")) (chars ("q")) 3
        = [chars ("A"), chars ("B"), chars ("C")] := by
  constructor
  · intro notes question m
    simp only [ChatService.extract_relevant_snippets]
    by_cases h : (pySplit notes (chars (". "))).length > m
    · simp [h]
    · simp only [h, if_false]
      exact (take_eq_self_of_le (by omega)).symm
  · rfl

/-- C7: the pydantic range constraints accept exactly the in-range counts
(given content of valid minimum length): MCQs 1-20 (21 rejected, 20
accepted), flashcards 1-50, curriculum weeks 1-52. -/
theorem request_range_validation :
    ∀ (content document : List Char) (n f w : Int),
      50 ≤ content.length → 50 ≤ document.length →
      (validGenerateMCQRequest content n = true ↔ 1 ≤ n ∧ n ≤ 20)
      ∧ (validGenerateFlashcardsRequest content f = true ↔ 1 ≤ f ∧ f ≤ 50)
      ∧ (validGenerateCurriculumRequest document w = true ↔ 1 ≤ w ∧ w ≤ 52)
      ∧ validGenerateMCQRequest (List.replicate 50 'x') 20 = true
      ∧ validGenerateMCQRequest (List.replicate 50 'x') 21 = false := by
  intro content document n f w hc hd
  refine ⟨?_, ?_, ?_, by decide, by decide⟩
  · simp [validGenerateMCQRequest, hc]
  · simp [validGenerateFlashcardsRequest, hc]
  · simp [validGenerateCurriculumRequest, hd]

/-- C7 witness: a 50-character content with the boundary value 50 passes the
flashcard validation. -/
theorem request_range_validation_witness :
    validGenerateFlashcardsRequest (List.replicate 50 'x') 50 = true := by
  have h := request_range_validation (List.replicate 50 'x') (List.replicate 50 'x') 20 50 52
    (by decide) (by decide)
  exact h.2.1.mpr (by decide)

/-- C8: the chat result's `confidence` is the fixed placeholder `0.85`,
inside `[0, 1]`, and identical across all inputs (it is never computed from
the reply, the notes or the question). -/
theorem chat_confidence_constant :
    ∀ (reply notes question reply2 notes2 question2 : List Char),
      (ChatService.chat_with_notes_result reply notes question).confidence = 85 / 100
      ∧ (0 : ℚ) ≤ (ChatService.chat_with_notes_result reply notes question).confidence
      ∧ (ChatService.chat_with_notes_result reply notes question).confidence ≤ 1
      ∧ (ChatService.chat_with_notes_result reply notes question).confidence
          = (ChatService.chat_with_notes_result reply2 notes2 question2).confidence := by
  intro reply notes question reply2 notes2 question2
  refine ⟨rfl, ?_, ?_, rfl⟩
  · norm_num [ChatService.chat_with_notes_result]
  · norm_num [ChatService.chat_with_notes_result]

/-- C9 counterexample: a failure caught inside the `/chat` route is returned
as an `HTTPException` response whose body has no `error` or `status_code`
key and whose `detail` contains the raw exception text (debug mode is never
consulted on this path), so not every HTTP-layer error response has the
uniform suppressed shape. -/
theorem route_error_leaks_exception_detail :
    (ChatRoutes.chat_error_response (chars ("boom"))).2.error = none
    ∧ (ChatRoutes.chat_error_response (chars ("boom"))).2.status_code = none
    ∧ (ChatRoutes.chat_error_response (chars ("boom"))).2.detail
        = chars ("Failed to process chat request: boom")
    ∧ chars ("boom") <:+: (ChatRoutes.chat_error_response (chars ("boom"))).2.detail := by
  refine ⟨rfl, rfl, by decide, ?_⟩
  exact ⟨chars ("Failed to process chat request: "), [], by decide⟩

/-- C9 amended: only the global unhandled-exception handler produces the
uniform `\x7berror, detail, status_code\x7d` body with HTTP 500 and a
generic detail outside debug mode; route-level failures become
`HTTPException` responses whose body carries only a `detail` field that
embeds the underlying exception text in every mode. -/
theorem error_shapes_by_handler :
    ∀ msg : List Char,
      (MainApp.global_exception_handler false msg).1 = 500
      ∧ (MainApp.global_exception_handler false msg).2.error
          = some (chars ("Internal Server Error"))
      ∧ (MainApp.global_exception_handler false msg).2.status_code = some 500
      ∧ (MainApp.global_exception_handler false msg).2.detail
          = chars ("An unexpected error occurred")
      ∧ (MainApp.global_exception_handler true msg).2.detail = msg
      ∧ (ChatRoutes.chat_error_response msg).1 = 500
      ∧ (ChatRoutes.chat_error_response msg).2.error = none
      ∧ (ChatRoutes.chat_error_response msg).2.detail
          = chars ("Failed to process chat request: ") ++ msg :=
  fun _ => ⟨rfl, rfl, rfl, rfl, rfl, rfl, rfl, rfl⟩

/-- List fact used for prompt containment: a list equal to
`pre ++ x ++ post` has `x` as an infix. -/
theorem infix_of_eq_append (pre post : List Char) {x whole : List Char}
    (h : whole = pre ++ x ++ post) : x <:+: whole := by
  rw [h]
  exact List.infix_append pre x post

/-- C6: each of the four prompt builders is a total function (rendering
cannot fail on validated inputs) whose output contains every caller-supplied
field verbatim as a contiguous substring — free-text fields literally, and
integer/boolean fields via their Python `str` rendering; optional fields are
contained whenever they are supplied non-empty (Python truthiness). -/
theorem prompts_contain_inputs :
    (∀ (notes question : List Char) (context : Option (List Char)),
        notes <:+: ChatService.chat_prompt notes question context
        ∧ question <:+: ChatService.chat_prompt notes question context
        ∧ ∀ c : List Char, context = some c → c ≠ [] →
            c <:+: ChatService.chat_prompt notes question context)
    ∧ (∀ (document difficulty : List Char) (subject : Option (List Char)) (w : Int),
        document <:+: CurriculumService.curriculum_prompt document subject difficulty w
        ∧ difficulty <:+: CurriculumService.curriculum_prompt document subject difficulty w
        ∧ pyStrInt w <:+: CurriculumService.curriculum_prompt document subject difficulty w
        ∧ ∀ s : List Char, subject = some s → s ≠ [] →
            s <:+: CurriculumService.curriculum_prompt document subject difficulty w)
    ∧ (∀ (content difficulty : List Char) (n : Int) (ie : Bool),
        content <:+: MCQService.mcq_prompt content n difficulty ie
        ∧ pyStrInt n <:+: MCQService.mcq_prompt content n difficulty ie
        ∧ difficulty <:+: MCQService.mcq_prompt content n difficulty ie
        ∧ pyStrBool ie <:+: MCQService.mcq_prompt content n difficulty ie)
    ∧ (∀ (content : List Char) (n : Int) (fa : Option (List Char)),
        content <:+: FlashcardService.flashcard_prompt content n fa
        ∧ pyStrInt n <:+: FlashcardService.flashcard_prompt content n fa
        ∧ ∀ f : List Char, fa = some f → f ≠ [] →
            f <:+: FlashcardService.flashcard_prompt content n fa) := by
  refine ⟨?_, ?_, ?_, ?_⟩
  · intro notes question context
    refine ⟨?_, ?_, ?_⟩
    · exact infix_of_eq_append (ChatService.chatSeg1)
        (ChatService.chatSeg2 ++ ChatService.chat_context_section context
          ++ ChatService.chatSeg3 ++ question ++ ChatService.chatSeg4)
        (by simp [ChatService.chat_prompt, List.append_assoc])
    · exact infix_of_eq_append (ChatService.chatSeg1 ++ notes ++ ChatService.chatSeg2
          ++ ChatService.chat_context_section context ++ ChatService.chatSeg3)
        (ChatService.chatSeg4)
        (by simp [ChatService.chat_prompt, List.append_assoc])
    · intro c hc hne
      subst hc
      refine infix_of_eq_append (ChatService.chatSeg1 ++ notes ++ ChatService.chatSeg2
          ++ chars ("Previous Context:\n"))
        (chars ("\n") ++ ChatService.chatSeg3 ++ question ++ ChatService.chatSeg4) ?_
      simp [ChatService.chat_prompt, ChatService.chat_context_section, hne, List.append_assoc]
  · intro document difficulty subject w
    refine ⟨?_, ?_, ?_, ?_⟩
    · exact infix_of_eq_append (CurriculumService.curSeg1 ++ pyStrInt w
          ++ CurriculumService.curSeg2)
        (CurriculumService.curSeg3 ++ CurriculumService.subject_value subject
          ++ CurriculumService.curSeg4 ++ difficulty ++ CurriculumService.curSeg5
          ++ pyStrInt w ++ CurriculumService.curSeg6 ++ difficulty
          ++ CurriculumService.curSeg7 ++ pyStrInt w ++ CurriculumService.curSeg8
          ++ difficulty ++ CurriculumService.curSeg9)
        (by simp [CurriculumService.curriculum_prompt, List.append_assoc])
    · exact infix_of_eq_append (CurriculumService.curSeg1 ++ pyStrInt w
          ++ CurriculumService.curSeg2 ++ document ++ CurriculumService.curSeg3
          ++ CurriculumService.subject_value subject ++ CurriculumService.curSeg4)
        (CurriculumService.curSeg5 ++ pyStrInt w ++ CurriculumService.curSeg6
          ++ difficulty ++ CurriculumService.curSeg7 ++ pyStrInt w
          ++ CurriculumService.curSeg8 ++ difficulty ++ CurriculumService.curSeg9)
        (by simp [CurriculumService.curriculum_prompt, List.append_assoc])
    · exact infix_of_eq_append (CurriculumService.curSeg1)
        (CurriculumService.curSeg2 ++ document ++ CurriculumService.curSeg3
          ++ CurriculumService.subject_value subject ++ CurriculumService.curSeg4
          ++ difficulty ++ CurriculumService.curSeg5 ++ pyStrInt w
          ++ CurriculumService.curSeg6 ++ difficulty ++ CurriculumService.curSeg7
          ++ pyStrInt w ++ CurriculumService.curSeg8 ++ difficulty
          ++ CurriculumService.curSeg9)
        (by simp [CurriculumService.curriculum_prompt, List.append_assoc])
    · intro s hs hne
      subst hs
      refine infix_of_eq_append (CurriculumService.curSeg1 ++ pyStrInt w
          ++ CurriculumService.curSeg2 ++ document ++ CurriculumService.curSeg3)
        (CurriculumService.curSeg4 ++ difficulty ++ CurriculumService.curSeg5
          ++ pyStrInt w ++ CurriculumService.curSeg6 ++ difficulty
          ++ CurriculumService.curSeg7 ++ pyStrInt w ++ CurriculumService.curSeg8
          ++ difficulty ++ CurriculumService.curSeg9) ?_
      simp [CurriculumService.curriculum_prompt, CurriculumService.subject_value, hne,
        List.append_assoc]
  · intro content difficulty n ie
    refine ⟨?_, ?_, ?_, ?_⟩
    · exact infix_of_eq_append (MCQService.mcqSeg1 ++ pyStrInt n ++ MCQService.mcqSeg2)
        (MCQService.mcqSeg3 ++ difficulty ++ MCQService.mcqSeg4 ++ pyStrBool ie
          ++ MCQService.mcqSeg5 ++ pyStrInt n ++ MCQService.mcqSeg6 ++ difficulty
          ++ MCQService.mcqSeg7)
        (by simp [MCQService.mcq_prompt, List.append_assoc])
    · exact infix_of_eq_append (MCQService.mcqSeg1)
        (MCQService.mcqSeg2 ++ content ++ MCQService.mcqSeg3 ++ difficulty
          ++ MCQService.mcqSeg4 ++ pyStrBool ie ++ MCQService.mcqSeg5 ++ pyStrInt n
          ++ MCQService.mcqSeg6 ++ difficulty ++ MCQService.mcqSeg7)
        (by simp [MCQService.mcq_prompt, List.append_assoc])
    · exact infix_of_eq_append (MCQService.mcqSeg1 ++ pyStrInt n ++ MCQService.mcqSeg2
          ++ content ++ MCQService.mcqSeg3)
        (MCQService.mcqSeg4 ++ pyStrBool ie ++ MCQService.mcqSeg5 ++ pyStrInt n
          ++ MCQService.mcqSeg6 ++ difficulty ++ MCQService.mcqSeg7)
        (by simp [MCQService.mcq_prompt, List.append_assoc])
    · exact infix_of_eq_append (MCQService.mcqSeg1 ++ pyStrInt n ++ MCQService.mcqSeg2
          ++ content ++ MCQService.mcqSeg3 ++ difficulty ++ MCQService.mcqSeg4)
        (MCQService.mcqSeg5 ++ pyStrInt n ++ MCQService.mcqSeg6 ++ difficulty
          ++ MCQService.mcqSeg7)
        (by simp [MCQService.mcq_prompt, List.append_assoc])
  · intro content n fa
    refine ⟨?_, ?_, ?_⟩
    · exact infix_of_eq_append (FlashcardService.flashSeg1 ++ pyStrInt n
          ++ FlashcardService.flashSeg2)
        (FlashcardService.flashSeg3 ++ FlashcardService.focus_section fa
          ++ FlashcardService.flashSeg4 ++ pyStrInt n ++ FlashcardService.flashSeg5
          ++ FlashcardService.focus_areas_value fa ++ FlashcardService.flashSeg6)
        (by simp [FlashcardService.flashcard_prompt, List.append_assoc])
    · exact infix_of_eq_append (FlashcardService.flashSeg1)
        (FlashcardService.flashSeg2 ++ content ++ FlashcardService.flashSeg3
          ++ FlashcardService.focus_section fa ++ FlashcardService.flashSeg4
          ++ pyStrInt n ++ FlashcardService.flashSeg5
          ++ FlashcardService.focus_areas_value fa ++ FlashcardService.flashSeg6)
        (by simp [FlashcardService.flashcard_prompt, List.append_assoc])
    · intro f hf hne
      subst hf
      refine infix_of_eq_append (FlashcardService.flashSeg1 ++ pyStrInt n
          ++ FlashcardService.flashSeg2 ++ content ++ FlashcardService.flashSeg3
          ++ chars ("Focus Areas: "))
        (FlashcardService.flashSeg4 ++ pyStrInt n ++ FlashcardService.flashSeg5
          ++ FlashcardService.focus_areas_value (some f) ++ FlashcardService.flashSeg6) ?_
      simp [FlashcardService.flashcard_prompt, FlashcardService.focus_section, hne,
        List.append_assoc]

/-- C6 witness: a concrete non-empty chat context is contained verbatim in
the rendered chat prompt. -/
theorem prompts_contain_inputs_witness :
    chars ("CTX") <:+: ChatService.chat_prompt (chars ("NOTES")) (chars ("QQ"))
      (some (chars ("CTX"))) :=
  (prompts_contain_inputs.1 (chars ("NOTES")) (chars ("QQ")) (some (chars ("CTX")))).2.2
    (chars ("CTX")) rfl (by decide)
